import Mathlib

/-!
Shallow embedding of the Third Space Vest bridge for Arma Reforger
(`armareforger-mod/Scripts/Game`).

The embedding covers the parts of the source exercised by the claims:

* the bearing calculation `CalculateDamageAngle` of
  `ThirdSpacePlayerDamageHandler.c` (the identical computation appears as
  `CalculateAngleToPosition`, `CalculateAngleToSource` and
  `CalculateAngleToImpact` in `ThirdSpaceEnvironmentHandler.c` and as
  `CalculateHitAngle` / `CalculateImpactAngle` in
  `ThirdSpaceVehicleHandler.c`);
* the per-category debounce pattern of `OnSuppressionUpdate`, `OnContact`
  and `OnUpdate` (fields `m_fLastSuppressionFeedbackTime`,
  `m_fLastCollisionTime`, `m_fLastRotorFeedbackTime`, each initialised
  to `0`);
* `BuildEventJson`, `SendEvent` and `TryConnect` of
  `ThirdSpaceTcpClient.c`;
* the damage hooks `OnDamage` of `SCR_CharacterDamageManagerComponent`
  and `SCR_VehicleDamageManagerComponent`.

Engine floats are modelled as real numbers for the trigonometric bearing
code and as rationals for the debounce timestamps and the encoder inputs;
engine ints are modelled as `Int`.
-/

/-- Enfusion `vector`: indices 0, 1, 2 are the x, y, z components, with
y the vertical component. -/
structure Vec3 where
  x : ℝ
  y : ℝ
  z : ℝ

noncomputable instance : Sub Vec3 :=
  ⟨fun a b => ⟨a.x - b.x, a.y - b.y, a.z - b.z⟩⟩

noncomputable instance : Add Vec3 :=
  ⟨fun a b => ⟨a.x + b.x, a.y + b.y, a.z + b.z⟩⟩

/-- Length of an Enfusion `vector`. -/
noncomputable def Vec3.Length (v : Vec3) : ℝ :=
  Real.sqrt (v.x ^ 2 + v.y ^ 2 + v.z ^ 2)

/-- `vector.Normalize()`: divide every component by the length.  Applied to
the zero vector each component is `0 / 0 = 0` in the real-number embedding,
so the zero vector is mapped to itself. -/
noncomputable def Vec3.Normalize (v : Vec3) : Vec3 :=
  ⟨v.x / v.Length, v.y / v.Length, v.z / v.Length⟩

/-- `vector.Dot`. -/
noncomputable def Vec3.Dot (a b : Vec3) : ℝ :=
  a.x * b.x + a.y * b.y + a.z * b.z

/-- `Math.DEG2RAD`. -/
noncomputable def DEG2RAD : ℝ := Real.pi / 180

/-- `Math.RAD2DEG`. -/
noncomputable def RAD2DEG : ℝ := 180 / Real.pi

/-- `Math.Atan2 y x`: the argument of the complex number `x + y·i`, lying
in `(-π, π]`, with `Atan2 0 0 = 0` exactly as IEEE `atan2`. -/
noncomputable def Atan2 (y x : ℝ) : ℝ :=
  Complex.arg (↑x + ↑y * Complex.I)

/-- `CalculateDamageAngle` of `ThirdSpacePlayerDamageHandler.c`, with the
owner entity's origin and yaw passed explicitly instead of read from
`GetOwner()`.  Source steps: `toHit = hitPosition - playerPos`,
`toHit[1] = 0`, `toHit.Normalize()`, forward vector
`(sin(yaw·DEG2RAD), 0, cos(yaw·DEG2RAD))`, `dot`/`cross`,
`angle = Atan2(cross, dot) * RAD2DEG`, and `angle += 360` when negative. -/
noncomputable def CalculateDamageAngle (playerPos : Vec3) (playerYaw : ℝ)
    (hitPosition : Vec3) : ℝ :=
  let toHit0 := hitPosition - playerPos
  let toHit := Vec3.Normalize ⟨toHit0.x, 0, toHit0.z⟩
  let playerDir : Vec3 :=
    ⟨Real.sin (playerYaw * DEG2RAD), 0, Real.cos (playerYaw * DEG2RAD)⟩
  let d := Vec3.Dot playerDir toHit
  let c := playerDir.x * toHit.z - playerDir.z * toHit.x
  let angle := Atan2 c d * RAD2DEG
  if angle < 0 then angle + 360 else angle

/-- After conversion to degrees the `Atan2` result lies in `(-180, 180]`. -/
theorem atan2_deg_bounds (y x : ℝ) :
    -180 < Atan2 y x * RAD2DEG ∧ Atan2 y x * RAD2DEG ≤ 180 := by
  have hpi : (0:ℝ) < Real.pi := Real.pi_pos
  have hc : (0:ℝ) < 180 / Real.pi := by positivity
  have h1 : Atan2 y x ≤ Real.pi := Complex.arg_le_pi _
  have h2 : -Real.pi < Atan2 y x := Complex.neg_pi_lt_arg _
  constructor
  · have := mul_lt_mul_of_pos_right h2 hc
    have hval : -Real.pi * (180 / Real.pi) = -180 := by
      field_simp
      ring
    rw [RAD2DEG]
    linarith
  · have := mul_le_mul_of_nonneg_right h1 hc.le
    have hval : Real.pi * (180 / Real.pi) = 180 := by
      field_simp
    rw [RAD2DEG]
    linarith

theorem Vec3.sub_x (a b : Vec3) : (a - b).x = a.x - b.x := rfl

theorem Vec3.sub_y (a b : Vec3) : (a - b).y = a.y - b.y := rfl

theorem Vec3.sub_z (a b : Vec3) : (a - b).z = a.z - b.z := rfl

theorem Vec3.add_x (a b : Vec3) : (a + b).x = a.x + b.x := rfl

theorem Vec3.add_y (a b : Vec3) : (a + b).y = a.y + b.y := rfl

theorem Vec3.add_z (a b : Vec3) : (a + b).z = a.z + b.z := rfl

/-- The final normalization step of the angle computation lands in
`[0, 360)` whatever `Atan2` produced. -/
theorem deg_norm_range (y x : ℝ) :
    0 ≤ (if Atan2 y x * RAD2DEG < 0 then Atan2 y x * RAD2DEG + 360
         else Atan2 y x * RAD2DEG) ∧
    (if Atan2 y x * RAD2DEG < 0 then Atan2 y x * RAD2DEG + 360
     else Atan2 y x * RAD2DEG) < 360 := by
  obtain ⟨h1, h2⟩ := atan2_deg_bounds y x
  split_ifs with h
  · exact ⟨by linarith, by linarith⟩
  · push_neg at h
    exact ⟨by linarith, by linarith⟩

/-- Claim C2: for every observer position, yaw and target position, the
bearing returned by `CalculateDamageAngle` lies in the half-open interval
`[0, 360)`. -/
theorem calculateDamageAngle_mem_Ico (p : Vec3) (yaw : ℝ) (t : Vec3) :
    0 ≤ CalculateDamageAngle p yaw t ∧ CalculateDamageAngle p yaw t < 360 := by
  simp only [CalculateDamageAngle]
  exact deg_norm_range _ _

/-- Claim C1: whenever observer and target share their horizontal position
(equal x and z), the direction vector degenerates to the zero vector, and
`CalculateDamageAngle` returns the defined fallback bearing `0`. -/
theorem calculateDamageAngle_degenerate (p t : Vec3) (yaw : ℝ)
    (hx : t.x = p.x) (hz : t.z = p.z) :
    CalculateDamageAngle p yaw t = 0 := by
  simp only [CalculateDamageAngle, Vec3.sub_x, Vec3.sub_z, hx, hz, sub_self]
  simp [Vec3.Normalize, Vec3.Dot, Atan2, Complex.arg_zero]

/-- Witness for claim C1 at observer `(0,0,0)`, yaw `0`, target `(0,5,0)`
directly above the observer. -/
theorem calculateDamageAngle_degenerate_witness :
    (Vec3.mk 0 5 0).x = (Vec3.mk 0 0 0).x ∧
    (Vec3.mk 0 5 0).z = (Vec3.mk 0 0 0).z ∧
    CalculateDamageAngle ⟨0, 0, 0⟩ 0 ⟨0, 5, 0⟩ = 0 :=
  ⟨rfl, rfl, calculateDamageAngle_degenerate ⟨0, 0, 0⟩ ⟨0, 5, 0⟩ 0 rfl rfl⟩

/-- A horizontal vector `(a, 0, b)` with `a² + b² = 1` has length 1. -/
theorem Vec3.Length_unit (a b : ℝ) (h : a ^ 2 + b ^ 2 = 1) :
    Vec3.Length ⟨a, 0, b⟩ = 1 := by
  unfold Vec3.Length
  have : a ^ 2 + (0:ℝ) ^ 2 + b ^ 2 = 1 := by rw [← h]; ring
  rw [this, Real.sqrt_one]

/-- Normalizing a horizontal unit vector leaves it unchanged. -/
theorem Vec3.Normalize_unit (a b : ℝ) (h : a ^ 2 + b ^ 2 = 1) :
    Vec3.Normalize ⟨a, 0, b⟩ = ⟨a, 0, b⟩ := by
  unfold Vec3.Normalize
  rw [Vec3.Length_unit a b h]
  simp

theorem Atan2_zero_one : Atan2 0 1 = 0 := by
  norm_num [Atan2, Complex.arg_one]

theorem Atan2_zero_neg_one : Atan2 0 (-1) = Real.pi := by
  unfold Atan2
  push_cast
  norm_num [Complex.arg_neg_one]

theorem Atan2_one_zero : Atan2 1 0 = Real.pi / 2 := by
  norm_num [Atan2, Complex.arg_I]

theorem Atan2_neg_one_zero : Atan2 (-1) 0 = -(Real.pi / 2) := by
  unfold Atan2
  push_cast
  norm_num [Complex.arg_neg_I]

/-- `CalculateDamageAngle` for a target offset from the observer by a
horizontal unit vector `(a, 0, b)`, reduced to the `Atan2` of the resulting
cross and dot products. -/
theorem calculateDamageAngle_add_unit (p : Vec3) (yaw a b : ℝ)
    (h : a ^ 2 + b ^ 2 = 1) :
    CalculateDamageAngle p yaw (p + ⟨a, 0, b⟩) =
      (if Atan2 (Real.sin (yaw * DEG2RAD) * b - Real.cos (yaw * DEG2RAD) * a)
            (Real.sin (yaw * DEG2RAD) * a + Real.cos (yaw * DEG2RAD) * b)
            * RAD2DEG < 0
       then Atan2 (Real.sin (yaw * DEG2RAD) * b - Real.cos (yaw * DEG2RAD) * a)
            (Real.sin (yaw * DEG2RAD) * a + Real.cos (yaw * DEG2RAD) * b)
            * RAD2DEG + 360
       else Atan2 (Real.sin (yaw * DEG2RAD) * b - Real.cos (yaw * DEG2RAD) * a)
            (Real.sin (yaw * DEG2RAD) * a + Real.cos (yaw * DEG2RAD) * b)
            * RAD2DEG) := by
  simp only [CalculateDamageAngle, Vec3.add_x, Vec3.add_z, Vec3.sub_x,
    Vec3.sub_z, add_sub_cancel_left, Vec3.Normalize_unit a b h, Vec3.Dot]
  norm_num

/-- The observer's horizontal forward unit vector for a given yaw — the
`playerDir` vector of the source. -/
noncomputable def forwardVec (yaw : ℝ) : Vec3 :=
  ⟨Real.sin (yaw * DEG2RAD), 0, Real.cos (yaw * DEG2RAD)⟩

/-- The opposite of the forward vector: directly behind the observer. -/
noncomputable def behindVec (yaw : ℝ) : Vec3 :=
  ⟨-Real.sin (yaw * DEG2RAD), 0, -Real.cos (yaw * DEG2RAD)⟩

/-- The forward vector rotated a quarter turn to the observer's left, in
the source's bearing convention (code comment: 0 = front, 90 = left,
180 = back, 270 = right). -/
noncomputable def leftVec (yaw : ℝ) : Vec3 :=
  ⟨-Real.cos (yaw * DEG2RAD), 0, Real.sin (yaw * DEG2RAD)⟩

/-- The forward vector rotated a quarter turn to the observer's right. -/
noncomputable def rightVec (yaw : ℝ) : Vec3 :=
  ⟨Real.cos (yaw * DEG2RAD), 0, -Real.sin (yaw * DEG2RAD)⟩

theorem calculateDamageAngle_forward (p : Vec3) (yaw : ℝ) :
    CalculateDamageAngle p yaw (p + forwardVec yaw) = 0 := by
  have h := Real.sin_sq_add_cos_sq (yaw * DEG2RAD)
  rw [forwardVec, calculateDamageAngle_add_unit p yaw _ _ h]
  have hd : Real.sin (yaw * DEG2RAD) * Real.sin (yaw * DEG2RAD) +
      Real.cos (yaw * DEG2RAD) * Real.cos (yaw * DEG2RAD) = 1 := by
    nlinarith [h]
  have hc : Real.sin (yaw * DEG2RAD) * Real.cos (yaw * DEG2RAD) -
      Real.cos (yaw * DEG2RAD) * Real.sin (yaw * DEG2RAD) = 0 := by ring
  rw [hd, hc, Atan2_zero_one]
  norm_num

theorem calculateDamageAngle_behind (p : Vec3) (yaw : ℝ) :
    CalculateDamageAngle p yaw (p + behindVec yaw) = 180 := by
  have h0 := Real.sin_sq_add_cos_sq (yaw * DEG2RAD)
  have h : (-Real.sin (yaw * DEG2RAD)) ^ 2 + (-Real.cos (yaw * DEG2RAD)) ^ 2 = 1 := by
    nlinarith [h0]
  rw [behindVec, calculateDamageAngle_add_unit p yaw _ _ h]
  have hd : Real.sin (yaw * DEG2RAD) * -Real.sin (yaw * DEG2RAD) +
      Real.cos (yaw * DEG2RAD) * -Real.cos (yaw * DEG2RAD) = -1 := by
    nlinarith [h0]
  have hc : Real.sin (yaw * DEG2RAD) * -Real.cos (yaw * DEG2RAD) -
      Real.cos (yaw * DEG2RAD) * -Real.sin (yaw * DEG2RAD) = 0 := by ring
  rw [hd, hc, Atan2_zero_neg_one]
  have hval : Real.pi * RAD2DEG = 180 := by
    rw [RAD2DEG]
    field_simp
  rw [hval]
  norm_num

theorem calculateDamageAngle_left (p : Vec3) (yaw : ℝ) :
    CalculateDamageAngle p yaw (p + leftVec yaw) = 90 := by
  have h0 := Real.sin_sq_add_cos_sq (yaw * DEG2RAD)
  have h : (-Real.cos (yaw * DEG2RAD)) ^ 2 + (Real.sin (yaw * DEG2RAD)) ^ 2 = 1 := by
    nlinarith [h0]
  rw [leftVec, calculateDamageAngle_add_unit p yaw _ _ h]
  have hd : Real.sin (yaw * DEG2RAD) * -Real.cos (yaw * DEG2RAD) +
      Real.cos (yaw * DEG2RAD) * Real.sin (yaw * DEG2RAD) = 0 := by ring
  have hc : Real.sin (yaw * DEG2RAD) * Real.sin (yaw * DEG2RAD) -
      Real.cos (yaw * DEG2RAD) * -Real.cos (yaw * DEG2RAD) = 1 := by
    nlinarith [h0]
  rw [hd, hc, Atan2_one_zero]
  have hval : Real.pi / 2 * RAD2DEG = 90 := by
    rw [RAD2DEG]
    field_simp
    ring
  rw [hval]
  norm_num

theorem calculateDamageAngle_right (p : Vec3) (yaw : ℝ) :
    CalculateDamageAngle p yaw (p + rightVec yaw) = 270 := by
  have h0 := Real.sin_sq_add_cos_sq (yaw * DEG2RAD)
  have h : (Real.cos (yaw * DEG2RAD)) ^ 2 + (-Real.sin (yaw * DEG2RAD)) ^ 2 = 1 := by
    nlinarith [h0]
  rw [rightVec, calculateDamageAngle_add_unit p yaw _ _ h]
  have hd : Real.sin (yaw * DEG2RAD) * Real.cos (yaw * DEG2RAD) +
      Real.cos (yaw * DEG2RAD) * -Real.sin (yaw * DEG2RAD) = 0 := by ring
  have hc : Real.sin (yaw * DEG2RAD) * -Real.sin (yaw * DEG2RAD) -
      Real.cos (yaw * DEG2RAD) * Real.cos (yaw * DEG2RAD) = -1 := by
    nlinarith [h0]
  rw [hd, hc, Atan2_neg_one_zero]
  have hval : -(Real.pi / 2) * RAD2DEG = -90 := by
    rw [RAD2DEG]
    field_simp
    ring
  rw [hval]
  norm_num

/-- Claim C7: for every observer position and yaw, a target one unit
directly ahead along the forward vector yields bearing 0, directly behind
yields 180, directly left yields 90 and directly right yields 270 — each
within the claimed tolerance `1e-3` (the embedding gives them exactly). -/
theorem calculateDamageAngle_cardinal_directions (p : Vec3) (yaw : ℝ) :
    |CalculateDamageAngle p yaw (p + forwardVec yaw) - 0| ≤ 1 / 1000 ∧
    |CalculateDamageAngle p yaw (p + behindVec yaw) - 180| ≤ 1 / 1000 ∧
    |CalculateDamageAngle p yaw (p + leftVec yaw) - 90| ≤ 1 / 1000 ∧
    |CalculateDamageAngle p yaw (p + rightVec yaw) - 270| ≤ 1 / 1000 := by
  rw [calculateDamageAngle_forward, calculateDamageAngle_behind,
    calculateDamageAngle_left, calculateDamageAngle_right]
  norm_num

/-- The per-category debounce state: the last-emission timestamp for each
category.  Every source site stores its timestamp in a dedicated field
(`m_fLastSuppressionFeedbackTime`, `m_fLastCollisionTime`,
`m_fLastRotorFeedbackTime`), each initialised to `0`. -/
structure DebounceState where
  lastEmittedAt : String → ℚ

/-- The initial debounce state: every timestamp field is initialised
to `0` in the source. -/
def initDebounce : DebounceState := ⟨fun _ => 0⟩

/-- The debounce check shared by `OnSuppressionUpdate`, `OnContact` and
`OnUpdate`: an event of `cat` arriving at `now` is suppressed when
`now - lastEmittedAt < minInterval`; otherwise the timestamp for `cat`
is set to `now` and the event is emitted. -/
def ShouldEmit (s : DebounceState) (cat : String) (now minInterval : ℚ) :
    Bool × DebounceState :=
  if now - s.lastEmittedAt cat < minInterval then (false, s)
  else (true, ⟨fun c => if c = cat then now else s.lastEmittedAt c⟩)

/-- Claim C3 as stated is false: starting from the initial state with
`minInterval = 0.5`, the check at `t = 0.0` is already suppressed (the
initial timestamp is `0`, and `0 - 0 < 0.5`), so the sequence of emissions
at `t = 0.0, 0.3, 0.6` is not `true, false, true`. -/
theorem shouldEmit_scenario_cex :
    ¬ ((ShouldEmit initDebounce "player_suppressed" 0 (1/2)).1 = true ∧
       (ShouldEmit (ShouldEmit initDebounce "player_suppressed" 0 (1/2)).2
         "player_suppressed" (3/10) (1/2)).1 = false ∧
       (ShouldEmit (ShouldEmit (ShouldEmit initDebounce "player_suppressed"
         0 (1/2)).2 "player_suppressed" (3/10) (1/2)).2
         "player_suppressed" (3/5) (1/2)).1 = true) := by
  intro h
  have h1 := h.1
  rw [ShouldEmit] at h1
  norm_num [initDebounce] at h1

/-- Claim C3 amended: from the initial state (timestamp `0`) with
`minInterval = 0.5`, the checks at `t = 0.0, 0.3, 0.6` yield emit = false,
false, true — the first two fall within `minInterval` of the initial
timestamp `0` and only the `t = 0.6` check emits. -/
theorem shouldEmit_scenario :
    (ShouldEmit initDebounce "player_suppressed" 0 (1/2)).1 = false ∧
    (ShouldEmit (ShouldEmit initDebounce "player_suppressed" 0 (1/2)).2
      "player_suppressed" (3/10) (1/2)).1 = false ∧
    (ShouldEmit (ShouldEmit (ShouldEmit initDebounce "player_suppressed"
      0 (1/2)).2 "player_suppressed" (3/10) (1/2)).2
      "player_suppressed" (3/5) (1/2)).1 = true := by
  norm_num [ShouldEmit, initDebounce]

/-- Claim C4 as stated is false: the very first event of a category is
suppressed when it arrives less than `minInterval` after time `0`, because
the last-emission timestamp is initialised to `0` rather than created
lazily.  Here: first event of "player_suppressed" at `t = 0.3` with
`minInterval = 0.5`. -/
theorem shouldEmit_first_cex :
    (ShouldEmit initDebounce "player_suppressed" (3/10) (1/2)).1 = false := by
  norm_num [ShouldEmit, initDebounce]

/-- Claim C4 amended: from the initial state, the first check for a
category emits exactly when its arrival time is at least `minInterval`
(the timestamp fields start at `0`, so `now - 0 < minInterval` suppresses
every earlier first event). -/
theorem shouldEmit_first_iff (cat : String) (t m : ℚ) :
    (ShouldEmit initDebounce cat t m).1 = true ↔ m ≤ t := by
  rw [ShouldEmit]
  simp only [initDebounce, sub_zero]
  constructor
  · intro h
    split at h
    · exact absurd h (by simp)
    · rename_i hlt
      exact not_lt.mp hlt
  · intro h
    rw [if_neg (not_lt.mpr h)]

/-- Claim C9: debounce timers of distinct categories are independent — a
check for category A (whether it emits or suppresses) leaves the recorded
timestamp of every other category B unchanged, so the outcome of a
subsequent check for B is exactly what it would have been without the
A-check. -/
theorem shouldEmit_independent (s : DebounceState) (catA catB : String)
    (tA mA tB mB : ℚ) (h : catB ≠ catA) :
    ((ShouldEmit s catA tA mA).2).lastEmittedAt catB = s.lastEmittedAt catB ∧
    (ShouldEmit (ShouldEmit s catA tA mA).2 catB tB mB).1 =
      (ShouldEmit s catB tB mB).1 := by
  have hstate : ((ShouldEmit s catA tA mA).2).lastEmittedAt catB =
      s.lastEmittedAt catB := by
    rw [ShouldEmit]
    split
    · rfl
    · simp [h]
  have hfst : ∀ (u : DebounceState) (c : String) (n m : ℚ),
      (ShouldEmit u c n m).1 = if n - u.lastEmittedAt c < m then false else true := by
    intro u c n m
    rw [ShouldEmit]
    split <;> rfl
  refine ⟨hstate, ?_⟩
  rw [hfst, hfst, hstate]

/-- Witness for claim C9: a "vehicle_collision" emission at `t = 1` does
not disturb the "player_suppressed" timer. -/
theorem shouldEmit_independent_witness :
    ("player_suppressed" : String) ≠ "vehicle_collision" ∧
    (((ShouldEmit initDebounce "vehicle_collision" 1 (1/2)).2).lastEmittedAt
        "player_suppressed" = initDebounce.lastEmittedAt "player_suppressed" ∧
      (ShouldEmit (ShouldEmit initDebounce "vehicle_collision" 1 (1/2)).2
          "player_suppressed" 2 (1/2)).1 =
        (ShouldEmit initDebounce "player_suppressed" 2 (1/2)).1) :=
  ⟨by decide,
   shouldEmit_independent initDebounce "vehicle_collision" "player_suppressed"
     1 (1/2) 2 (1/2) (by decide)⟩

/-- `BuildEventJson` of `ThirdSpaceTcpClient.c`: sequential string
concatenation of the JSON fields, with the `intensity` field inserted only
when `intensity > 0`.  Float inputs are modelled as `ℚ` and the engine's
number-to-string conversion as `toString`. -/
def BuildEventJson (eventType : String) (angle : ℚ) (damage : ℤ)
    (intensity : ℚ) : String :=
  let json := "\x7b"
  let json := json ++ "\"cmd\":\"armareforger_event\","
  let json := json ++ "\"event\":\"" ++ eventType ++ "\","
  let json := json ++ "\"angle\":" ++ toString angle ++ ","
  let json := json ++ "\"damage\":" ++ toString damage
  let json := if intensity > 0 then
      json ++ ",\"intensity\":" ++ toString intensity
    else json
  json ++ "\x7d"

/-- The wire message exactly as the spec writes it: the fields `cmd`,
`event`, `angle`, `damage` in that order, `cmd` always the literal tag
`armareforger_event`, and an `intensity` field appended iff the intensity
override is strictly positive. -/
def specWireMessage (category : String) (angle : ℚ) (damage : ℤ)
    (intensity : ℚ) : String :=
  "\x7b\"cmd\":\"armareforger_event\",\"event\":\"" ++ category ++
    "\",\"angle\":" ++ toString angle ++ ",\"damage\":" ++ toString damage ++
    (if 0 < intensity then ",\"intensity\":" ++ toString intensity else "") ++
    "\x7d"

/-- Claim C8: for every event type, angle, damage and intensity, the
encoder `BuildEventJson` produces exactly the spec's wire text — fields
`cmd`, `event`, `angle`, `damage` in that order with the constant tag,
plus an `intensity` field iff the intensity is strictly greater than 0. -/
theorem buildEventJson_eq_spec (eventType : String) (angle : ℚ)
    (damage : ℤ) (intensity : ℚ) :
    BuildEventJson eventType angle damage intensity =
      specWireMessage eventType angle damage intensity := by
  unfold BuildEventJson specWireMessage
  split_ifs with h
  · simp [String.append_assoc]
  · simp [String.append_assoc]

/-- Connection state of `ThirdSpaceTcpClient`: the static fields
`s_bConnected` and `s_fLastReconnectAttempt`. -/
structure ClientState where
  s_bConnected : Bool
  s_fLastReconnectAttempt : ℚ

/-- The observable effect of one `SendEvent` call: the network writes
performed and the diagnostic log lines printed. -/
structure SendEffect where
  sent : List String
  log : List String

/-- `SendEvent` of `ThirdSpaceTcpClient.c`: builds the JSON payload and
logs it.  The actual TCP transmission is an unimplemented TODO in the
source (the socket code is commented out), so the call writes nothing to
the network, stores nothing, and leaves the connection state untouched —
in every connection state. -/
def SendEvent (s : ClientState) (eventType : String) (angle : ℚ)
    (damage : ℤ) (intensity : ℚ) : ClientState × SendEffect :=
  let json := BuildEventJson eventType angle damage intensity
  (s, ⟨[], ["[ThirdSpaceVest] Sending event: " ++ json]⟩)

/-- Claim C5: every event submitted while the client is not connected
(`s_bConnected = false`, covering the spec's Disconnected and Connecting
states) is silently discarded — `SendEvent` performs no network write,
buffers nothing (the state is returned unchanged, and no buffer exists in
the state), and returns normally. -/
theorem sendEvent_disconnected_noop (s : ClientState) (eventType : String)
    (angle : ℚ) (damage : ℤ) (intensity : ℚ)
    (h : s.s_bConnected = false) :
    (SendEvent s eventType angle damage intensity).1 = s ∧
    (SendEvent s eventType angle damage intensity).2.sent = [] :=
  ⟨rfl, rfl⟩

/-- Witness for claim C5: a "player_damage" event submitted in the initial
disconnected state. -/
theorem sendEvent_disconnected_noop_witness :
    (ClientState.mk false 0).s_bConnected = false ∧
    ((SendEvent ⟨false, 0⟩ "player_damage" 0 0 0).1 = ⟨false, 0⟩ ∧
      (SendEvent ⟨false, 0⟩ "player_damage" 0 0 0).2.sent = []) :=
  ⟨rfl, sendEvent_disconnected_noop ⟨false, 0⟩ "player_damage" 0 0 0 rfl⟩

/-- `TryConnect` of `ThirdSpaceTcpClient.c`: the placeholder implementation
unconditionally sets `s_bConnected = true` and returns it; the endpoint is
never probed, so the "Failed to connect" branch is unreachable. -/
def TryConnect (s : ClientState) : Bool × ClientState :=
  let s1 : ClientState := { s with s_bConnected := true }
  (s1.s_bConnected, s1)

/-- Claim C6 concerns a code bug: called in the disconnected state — in
particular with no daemon reachable at 127.0.0.1:5050, since reachability
is never consulted — `TryConnect` still reports success and transitions the
state to connected, where the claim requires the connect operation to fail
and leave the state not Connected. -/
theorem tryConnect_always_succeeds :
    TryConnect ⟨false, 0⟩ = (true, ⟨true, 0⟩) := rfl

/-- One call to `ThirdSpaceVest_SendEvent`: event type, bearing angle,
damage magnitude and intensity override (0 when omitted, the source
default). -/
structure VestEvent where
  eventType : String
  angle : ℝ
  damage : ℤ
  intensity : ℚ

/-- `OnDamage` of `SCR_CharacterDamageManagerComponent`
(`ThirdSpacePlayerDamageHandler.c`), returning the list of
`ThirdSpaceVest_SendEvent` calls it makes.  The `IsLocalPlayer()` guard,
the scaled health read by `GetHealthScaled()`, and the owner's origin and
yaw are passed explicitly. -/
noncomputable def CharacterOnDamage (isLocalPlayer : Bool) (damage : ℤ)
    (healthScaled : ℚ) (playerPos : Vec3) (playerYaw : ℝ)
    (hitPosition : Vec3) : List VestEvent :=
  if !isLocalPlayer then []
  else if damage ≤ 0 then []
  else
    let angle := CalculateDamageAngle playerPos playerYaw hitPosition
    ⟨"player_damage", angle, damage, 0⟩ ::
      (if healthScaled ≤ 0 then [⟨"player_death", angle, damage, 0⟩] else [])

/-- `OnDamage` of `SCR_VehicleDamageManagerComponent`
(`ThirdSpaceVehicleHandler.c`): same shape, with the
`IsLocalPlayerInVehicle()` guard, the `vehicle_damage` event carrying the
hit damage and the `vehicle_explosion` event carrying the constant 100. -/
noncomputable def VehicleOnDamage (isLocalPlayerInVehicle : Bool)
    (damage : ℤ) (healthScaled : ℚ) (vehiclePos : Vec3) (vehicleYaw : ℝ)
    (hitPosition : Vec3) : List VestEvent :=
  if !isLocalPlayerInVehicle then []
  else if damage ≤ 0 then []
  else
    let angle := CalculateDamageAngle vehiclePos vehicleYaw hitPosition
    ⟨"vehicle_damage", angle, damage, 0⟩ ::
      (if healthScaled ≤ 0 then [⟨"vehicle_explosion", angle, 100, 0⟩] else [])

/-- Claim C10: when the damage hook runs for the local player with
`damage > 0` and the scaled health is ≤ 0, exactly two events are emitted
in order — `player_damage` then `player_death` (respectively
`vehicle_damage` then `vehicle_explosion`) — and both carry the same
bearing computed from the single hit position. -/
theorem onDamage_death_two_events (damage : ℤ) (healthScaled : ℚ)
    (p : Vec3) (yaw : ℝ) (hit : Vec3)
    (hd : 0 < damage) (hh : healthScaled ≤ 0) :
    CharacterOnDamage true damage healthScaled p yaw hit =
      [⟨"player_damage", CalculateDamageAngle p yaw hit, damage, 0⟩,
       ⟨"player_death", CalculateDamageAngle p yaw hit, damage, 0⟩] ∧
    VehicleOnDamage true damage healthScaled p yaw hit =
      [⟨"vehicle_damage", CalculateDamageAngle p yaw hit, damage, 0⟩,
       ⟨"vehicle_explosion", CalculateDamageAngle p yaw hit, 100, 0⟩] := by
  constructor <;>
    simp [CharacterOnDamage, VehicleOnDamage, not_le.mpr hd, hh]

/-- Witness for claim C10: a 5-damage hit at `(1,2,3)` on an observer at
the origin with yaw 0, leaving scaled health 0. -/
theorem onDamage_death_two_events_witness :
    0 < (5:ℤ) ∧ (0:ℚ) ≤ 0 ∧
    (CharacterOnDamage true 5 0 ⟨0, 0, 0⟩ 0 ⟨1, 2, 3⟩ =
      [⟨"player_damage", CalculateDamageAngle ⟨0, 0, 0⟩ 0 ⟨1, 2, 3⟩, 5, 0⟩,
       ⟨"player_death", CalculateDamageAngle ⟨0, 0, 0⟩ 0 ⟨1, 2, 3⟩, 5, 0⟩] ∧
     VehicleOnDamage true 5 0 ⟨0, 0, 0⟩ 0 ⟨1, 2, 3⟩ =
      [⟨"vehicle_damage", CalculateDamageAngle ⟨0, 0, 0⟩ 0 ⟨1, 2, 3⟩, 5, 0⟩,
       ⟨"vehicle_explosion", CalculateDamageAngle ⟨0, 0, 0⟩ 0 ⟨1, 2, 3⟩, 100, 0⟩]) :=
  ⟨by decide, le_refl 0,
   onDamage_death_two_events 5 0 ⟨0, 0, 0⟩ 0 ⟨1, 2, 3⟩ (by decide) (le_refl 0)⟩
